import Mathlib

/-!
Shallow embedding of the MovieApp repository.

Server side (Express + better-sqlite3, `server/index.js` and
`server/database.js`): tables are embedded as Lean lists of row
structures, every route handler as a pure function from the tables it
reads and writes (plus the request data and, for password hashing and
comparison, an oracle function standing for bcrypt) to a response and
the new table contents.

Client side (`src/services/db.ts`, `src/services/RecommendationService.ts`,
expo-sqlite local cache + TMDB HTTP client): the local tables are lists
kept in insertion order, the TMDB API is an oracle structure whose
`Option` results model a request that either succeeds or fails
(`none` = network/HTTP failure, which the service code catches).
-/

namespace MovieApp

/-! ## Server data model (`server/database.js`) -/

/-- Row of the server `users` table. -/
structure SUser where
  id : Nat
  name : String
  email : String
  passwordHash : String
  deriving Repr, DecidableEq

/-- Row of the server `collections` table. -/
structure SCollection where
  id : Nat
  userId : Nat
  name : String
  deriving Repr, DecidableEq

/-- Row of the server `collection_items` table. -/
structure SCollectionItem where
  id : Nat
  collectionId : Nat
  tmdbId : Nat
  title : String
  posterPath : Option String
  deriving Repr, DecidableEq

/-- Row of the server `ratings` table (`UNIQUE(user_id, tmdb_id)` is a
schema constraint, not baked into the list type; the handlers are what
maintain it). -/
structure SRating where
  id : Nat
  userId : Nat
  tmdbId : Nat
  rating : Int
  review : Option String
  title : Option String
  posterPath : Option String
  deriving Repr, DecidableEq

/-- An HTTP response, reduced to the status code and the `error` field of
the JSON body (the only parts the claims are about). -/
structure Resp where
  status : Nat
  error : Option String
  deriving Repr, DecidableEq

/-! ## Auth routes (`server/index.js`) -/

/-- JavaScript's `String.prototype.toLowerCase()` on the character list
of the string (for the ASCII emails at play this is exactly Unicode
simple lowercasing, which is also what `String.toLower` computes). -/
def jsToLower (s : String) : String :=
  ⟨s.data.map Char.toLower⟩

/-- JavaScript's `String.prototype.includes` specialised to the
single-character needle `'@'` used by the register handler. -/
def includes (s : String) (c : Char) : Bool :=
  s.data.contains c

/-- Body of `POST /api/auth/register`. A missing JSON field arrives as
`undefined`, which is falsy exactly like the empty string under the
handler's `!name || !email || !password` check, so absent fields are
embedded as `""`. -/
structure RegisterReq where
  name : String
  email : String
  password : String
  deriving Repr, DecidableEq

/-- Result of the register handler: response plus the new `users` table. -/
structure RegisterResult where
  resp : Resp
  users : List SUser
  deriving Repr

/-- Route `POST /api/auth/register`: validates the three fields, requires an
`'@'` in the email and password length ≥ 6, rejects when a user row with
the lowercased email already exists (`SELECT id FROM users WHERE email = ?`
with `email.toLowerCase()`), otherwise inserts the user with the
lowercased email and the bcrypt hash (embedded as the oracle `hash`).
`nextId` stands for the AUTOINCREMENT id. -/
def registerHandler (users : List SUser) (nextId : Nat) (hash : String → String)
    (req : RegisterReq) : RegisterResult :=
  if req.name = "" ∨ req.email = "" ∨ req.password = "" then
    ⟨⟨400, some "All fields are required"⟩, users⟩
  else if includes req.email '@' = false then
    ⟨⟨400, some "Invalid email format"⟩, users⟩
  else if req.password.length < 6 then
    ⟨⟨400, some "Password must be at least 6 characters"⟩, users⟩
  else
    match users.find? (fun u => u.email == jsToLower req.email) with
    | some _ => ⟨⟨400, some "Email already registered"⟩, users⟩
    | none =>
        ⟨⟨201, none⟩,
          users ++ [⟨nextId, req.name, jsToLower req.email, hash req.password⟩]⟩

/-- Route `POST /api/auth/login`: validates presence of both fields, looks the
user up by lowercased email, then compares the password against the
stored hash via bcrypt (embedded as the oracle `checkPw`, standing for
`bcrypt.compare`). On success the route issues a token and echoes the
user; the embedding records that as status 200 with no error, which is
all C6 (about the failure responses) needs. -/
def loginHandler (users : List SUser) (checkPw : String → String → Bool)
    (email password : String) : Resp :=
  if email = "" ∨ password = "" then
    ⟨400, some "Email and password are required"⟩
  else
    match users.find? (fun u => u.email == jsToLower email) with
    | none => ⟨401, some "Invalid email or password"⟩
    | some u =>
        if checkPw password u.passwordHash then ⟨200, none⟩
        else ⟨401, some "Invalid email or password"⟩

/-! ## Collection routes (`server/index.js`) -/

/-- The ownership lookup shared by the collection routes:
`SELECT * FROM collections WHERE id = ? AND user_id = ?`. -/
def findOwned (cols : List SCollection) (cid uid : Nat) : Option SCollection :=
  cols.find? (fun c => c.id == cid && c.userId == uid)

/-- Route `GET /api/collections/:id/items`: 404 unless the collection belongs
to the caller, else 200 with the collection's items. Read-only. -/
def getItemsHandler (cols : List SCollection) (items : List SCollectionItem)
    (uid cid : Nat) : Resp × Option (List SCollectionItem) :=
  match findOwned cols cid uid with
  | none => (⟨404, some "Collection not found"⟩, none)
  | some _ => (⟨200, none⟩, some (items.filter (fun it => it.collectionId == cid)))

/-- Route `DELETE /api/collections/:id`: 404 unless the collection belongs to
the caller; else `DELETE FROM collections WHERE id = ?`, whose
`ON DELETE CASCADE` foreign key (declared in `server/database.js`, with
`PRAGMA foreign_keys = ON`) also removes every `collection_items` row
whose `collection_id` references it. Returns the response and the new
`collections` and `collection_items` tables. -/
def deleteCollectionHandler (cols : List SCollection) (items : List SCollectionItem)
    (uid cid : Nat) : Resp × List SCollection × List SCollectionItem :=
  match findOwned cols cid uid with
  | none => (⟨404, some "Collection not found"⟩, cols, items)
  | some _ =>
      (⟨200, none⟩,
        cols.filter (fun c => c.id != cid),
        items.filter (fun it => it.collectionId != cid))

/-- Route `POST /api/collections/:id/items`: 404 unless the collection belongs
to the caller; 400 if the movie is already in the collection; else
inserts the item. Returns the response, the new `collection_items`
table and the next AUTOINCREMENT id. -/
def addItemHandler (cols : List SCollection) (items : List SCollectionItem)
    (nextId uid cid : Nat) (tmdbId : Nat) (title : String)
    (posterPath : Option String) : Resp × List SCollectionItem × Nat :=
  match findOwned cols cid uid with
  | none => (⟨404, some "Collection not found"⟩, items, nextId)
  | some _ =>
      match items.find? (fun it => it.collectionId == cid && it.tmdbId == tmdbId) with
      | some _ => (⟨400, some "Movie already in collection"⟩, items, nextId)
      | none =>
          (⟨201, none⟩, items ++ [⟨nextId, cid, tmdbId, title, posterPath⟩], nextId + 1)

/-! ## Rating routes (`server/index.js`) -/

/-- A string-valued JSON body field as the route sees it: the key can be
absent (`undefined` — e.g. dropped by `JSON.stringify` on the client),
an explicit `null`, or a string. The distinction matters: better-sqlite3
binds `null` and strings but THROWS a TypeError on `undefined`, so a raw
`undefined` binding aborts the statement. -/
inductive JsonField where
  | undefined
  | null
  | str (s : String)
  deriving Repr, DecidableEq

/-- JavaScript's `x || null` on such a field: `undefined`, `null` and
the empty string (all falsy) become null. -/
def jsOrNull (o : JsonField) : Option String :=
  match o with
  | .str s => if s = "" then none else some s
  | _ => none

/-- The SQLite value better-sqlite3 binds for a field that is NOT
`undefined`: `null` binds as SQL NULL, a string as TEXT. (An `undefined`
field never reaches this point — the driver throws instead, which
`postRatingHandler` models as its 500 branch.) -/
def bindField : JsonField → Option String
  | .str s => some s
  | _ => none

/-- SQL `COALESCE(a, b)` on two nullable strings. -/
def coalesce (a b : Option String) : Option String :=
  match a with
  | some s => some s
  | none => b

/-- Body of `POST /api/ratings`. `rating === undefined` is the handler's
presence check, so `rating` is an `Option`; a `tmdb_id` of 0 is falsy in
JS and fails the `!tmdb_id` check, so it is kept as a plain `Nat` and the
handler tests it against 0. The string fields are `JsonField`s because
the update branch binds `title` and `poster_path` raw, where absent
(`undefined`) and explicit `null` behave differently. -/
structure RatingBody where
  tmdbId : Nat
  rating : Option Int
  review : JsonField
  title : JsonField
  posterPath : JsonField
  deriving Repr, DecidableEq

/-- Route `POST /api/ratings` (the rating upsert): after validation, if a row
with the caller's user id and the body's tmdb id exists, run
`UPDATE ratings SET rating = ?, review = ?, title = COALESCE(?, title),
poster_path = COALESCE(?, poster_path) WHERE user_id = ? AND tmdb_id = ?`
(which touches every matching row, embedded as a map over the table);
otherwise insert a fresh row. In the update branch `review` is guarded
by `review || null` but `title` and `poster_path` are bound RAW, so when
either is `undefined` better-sqlite3 throws before executing the
statement and the route's catch answers 500 "Failed to save rating",
updating nothing; only an explicit `null` reaches the COALESCE and keeps
the prior value. The insert branch guards all three with `|| null` and
cannot throw this way. Returns the response, the new `ratings` table and
the next AUTOINCREMENT id. -/
def postRatingHandler (ratings : List SRating) (nextId uid : Nat)
    (b : RatingBody) : Resp × List SRating × Nat :=
  if b.tmdbId = 0 then
    (⟨400, some "Movie ID and rating are required"⟩, ratings, nextId)
  else
    match b.rating with
    | none => (⟨400, some "Movie ID and rating are required"⟩, ratings, nextId)
    | some r =>
        match ratings.find? (fun x => x.userId == uid && x.tmdbId == b.tmdbId) with
        | some _ =>
            if b.title = JsonField.undefined ∨ b.posterPath = JsonField.undefined then
              (⟨500, some "Failed to save rating"⟩, ratings, nextId)
            else
              (⟨200, none⟩,
                ratings.map (fun x =>
                  if x.userId = uid ∧ x.tmdbId = b.tmdbId then
                    { x with rating := r, review := jsOrNull b.review,
                             title := coalesce (bindField b.title) x.title,
                             posterPath := coalesce (bindField b.posterPath) x.posterPath }
                  else x),
                nextId)
        | none =>
            (⟨200, none⟩,
              ratings ++ [⟨nextId, uid, b.tmdbId, r, jsOrNull b.review,
                           jsOrNull b.title, jsOrNull b.posterPath⟩],
              nextId + 1)

/-- Response of `GET /api/ratings/:tmdbId`: `res.json(...)` leaves the
status at its default 200 and the body's `rating` field is the found row
or null. -/
structure GetRatingResp where
  status : Nat
  rating : Option SRating
  deriving Repr, DecidableEq

/-- Route `GET /api/ratings/:tmdbId`: `SELECT * FROM ratings WHERE user_id = ?
AND tmdb_id = ?`, answered with `res.json(\x7b rating: rating || null \x7d)` —
always 200, with null when no row matches. -/
def getRatingHandler (ratings : List SRating) (uid tid : Nat) : GetRatingResp :=
  ⟨200, ratings.find? (fun x => x.userId == uid && x.tmdbId == tid)⟩

/-! ## Client local cache (`src/services/db.ts`)

The local expo-sqlite schema differs from the server's: the local
`ratings` table is `CREATE TABLE ratings (tmdb_id INTEGER PRIMARY KEY,
user_id INTEGER, rating INTEGER NOT NULL, review TEXT, ...)`. An
`INTEGER PRIMARY KEY` column in SQLite is an alias of the table's
`rowid`, so for this table `rowid = tmdb_id`. Tables are embedded as
lists in insertion order; an upsert that hits an existing row updates it
in place (SQLite's `ON CONFLICT ... DO UPDATE` keeps the row and its
rowid). -/

/-- Row of the local `ratings` table (the `user_id` column is never
written by `saveRating` and plays no role in the claims). -/
structure LRating where
  tmdbId : Nat
  rating : Int
  review : Option String
  deriving Repr, DecidableEq

/-- Row of the local `collections` table (`user_id` is never populated
locally; `created_at` plays no role in the claims). -/
structure LCollection where
  id : Nat
  name : String
  deriving Repr, DecidableEq

/-- Row of the local `collection_items` table. -/
structure LItem where
  id : Nat
  collectionId : Nat
  tmdbId : Nat
  title : String
  posterPath : Option String
  deriving Repr, DecidableEq

/-- The local write inside `saveRating`:
`INSERT INTO ratings (tmdb_id, rating, review) VALUES (?, ?, ?)
ON CONFLICT(tmdb_id) DO UPDATE SET rating = excluded.rating,
review = excluded.review`. -/
def localUpsert (st : List LRating) (tid : Nat) (rating : Int)
    (review : Option String) : List LRating :=
  if st.any (fun x => x.tmdbId == tid) then
    st.map (fun x =>
      if x.tmdbId = tid then { x with rating := rating, review := review } else x)
  else
    st ++ [⟨tid, rating, review⟩]

/-- Function `getLastHighRatedMovie`:
`SELECT tmdb_id FROM ratings WHERE rating >= 4 ORDER BY rowid DESC LIMIT 1`.
Because `tmdb_id INTEGER PRIMARY KEY` aliases `rowid` in this table,
ordering by `rowid DESC` orders by `tmdb_id DESC`, so the query returns
the GREATEST tmdb id among rows rated ≥ 4 — not the most recently
inserted one, despite the function's own doc comment ("the most recent
movie rated >= 4 stars"). -/
def getLastHighRatedMovie (st : List LRating) : Option Nat :=
  ((st.filter (fun x => decide (4 ≤ x.rating))).map (fun x => x.tmdbId)).max?

/-- Modelled from the spec: the selection `getLastHighRatedMovie` is
documented to perform — "the most recently inserted rating with value
≥ 4". On the insertion-ordered list this is the last row with
rating ≥ 4 (an upsert keeps a row's position, as SQLite keeps its
rowid). Used only to exhibit C2's divergence from the code. -/
def specLastHighRatedMovie (st : List LRating) : Option Nat :=
  ((st.filter (fun x => decide (4 ≤ x.rating))).map (fun x => x.tmdbId)).getLast?

/-- Argument shape of `addMovieToCollection` (client `Movie` shape, reduced to
the fields the function touches): `movieObj.tmdb_id ?? movieObj.id`
falls back to `id` when `tmdb_id` is absent. -/
structure MovieArg where
  id : Nat
  tmdbId : Option Nat
  title : String
  posterPath : Option String
  deriving Repr, DecidableEq

/-- Function `addMovieToCollection`: resolves the tmdb id, returns the existing
item's id without inserting when a `(collection_id, tmdb_id)` match is
already present, otherwise inserts. Result: new `collection_items`
table, next AUTOINCREMENT id, and the id the function returns. -/
def addMovieToCollection (items : List LItem) (nextId collectionId : Nat)
    (movie : MovieArg) : List LItem × Nat × Nat :=
  let tid := movie.tmdbId.getD movie.id
  match items.find? (fun it => it.collectionId == collectionId && it.tmdbId == tid) with
  | some existing => (items, nextId, existing.id)
  | none =>
      (items ++ [⟨nextId, collectionId, tid, movie.title, movie.posterPath⟩],
        nextId + 1, nextId)

/-- Function `getCollectionItems`:
`SELECT * FROM collection_items WHERE collection_id = ?`. -/
def getCollectionItems (items : List LItem) (cid : Nat) : List LItem :=
  items.filter (fun it => it.collectionId == cid)

/-- Local `deleteCollection`: two statements, items first
(`DELETE FROM collection_items WHERE collection_id = ?`) then the
collection (`DELETE FROM collections WHERE id = ?`). -/
def deleteCollection (cols : List LCollection) (items : List LItem)
    (cid : Nat) : List LCollection × List LItem :=
  (cols.filter (fun c => c.id != cid),
    items.filter (fun it => it.collectionId != cid))

/-! ## `saveRating` and its best-effort server sync -/

/-- Observable steps `saveRating` takes, in order: the local upsert,
then (when a token is present) the `POST /api/ratings` fetch. -/
inductive ClientEvent where
  | localWrite (tmdbId : Nat) (rating : Int) (review : Option String)
  | serverSync (tmdbId : Nat) (rating : Int)
  deriving Repr, DecidableEq

/-- What `saveRating` leaves behind: the local table, the server's
ratings table (with its next id), the ordered action trace, and whether
the call threw. -/
structure SaveOutcome where
  localRatings : List LRating
  serverRatings : List SRating
  serverNextId : Nat
  events : List ClientEvent
  threw : Bool
  deriving Repr

/-- How `saveRating`'s `review : string | null` (default `null`)
serialises into the fetch body: `JSON.stringify` keeps a `null` value,
so the server sees an explicit null, never `undefined`. -/
def jsonOfNullable : Option String → JsonField
  | some s => .str s
  | none => .null

/-- How `saveRating`'s optional `title?`/`posterPath?` parameters
serialise: `JSON.stringify` DROPS an `undefined` value, so the server
sees an absent key, not a null. -/
def jsonOfOptional : Option String → JsonField
  | some s => .str s
  | none => .undefined

/-- Function `saveRating`: performs the local upsert, then — if `getToken`
returned a token — fires the `POST /api/ratings` fetch with body
`\x7b tmdb_id, rating, review, title, poster_path \x7d` (`review` arrives as
an explicit null when unset, absent `title`/`poster_path` are dropped by
JSON.stringify). The fetch sits in its own try/catch whose handler only
logs ("Don't throw - local save succeeded"), so a failed sync
(`syncFails`) changes neither the local result nor raises; the response
of a successful sync — even a 500 — is ignored as well (`fetch` resolves
on HTTP errors and the code never reads the response). `uid` is the user
the token authenticates. -/
def saveRating (st : List LRating) (server : List SRating)
    (serverNextId : Nat) (uid : Nat) (tid : Nat) (rating : Int)
    (review : Option String) (title posterPath : Option String)
    (token : Option String) (syncFails : Bool) : SaveOutcome :=
  let st' := localUpsert st tid rating review
  match token with
  | none => ⟨st', server, serverNextId, [.localWrite tid rating review], false⟩
  | some _ =>
      if syncFails then
        ⟨st', server, serverNextId,
          [.localWrite tid rating review, .serverSync tid rating], false⟩
      else
        let res := postRatingHandler server serverNextId uid
          ⟨tid, some rating, jsonOfNullable review,
            jsonOfOptional title, jsonOfOptional posterPath⟩
        ⟨st', res.2.1, res.2.2,
          [.localWrite tid rating review, .serverSync tid rating], false⟩

/-! ## TMDB client and recommendation selector
(`src/services/RecommendationService.ts`) -/

/-- A TMDB list-endpoint result entry, reduced to the fields the claims
touch (`transformMovie` copies the rest verbatim in the same way). -/
structure TMDBMovie where
  id : Nat
  title : String
  posterPath : Option String
  deriving Repr, DecidableEq

/-- A TMDB details response (the recommendation title only needs
`title`). -/
structure TMDBDetails where
  id : Nat
  title : String
  deriving Repr, DecidableEq

/-- Client-side `Movie` produced by `transformMovie`: `id` and `tmdb_id`
are both set from the TMDB `id`. -/
structure Movie where
  id : Nat
  tmdbId : Nat
  title : String
  posterPath : Option String
  deriving Repr, DecidableEq

/-- The field mapping `transformMovie`. -/
def transformMovie (m : TMDBMovie) : Movie :=
  ⟨m.id, m.id, m.title, m.posterPath⟩

/-- The external TMDB HTTP API as an oracle; `none` models a request
that fails (network error or non-2xx, i.e. the axios call throwing). -/
structure TmdbApi where
  details : Nat → Option TMDBDetails
  recommendations : Nat → Option (List TMDBMovie)
  trending : Option (List TMDBMovie)

/-- Function `getMovieDetails`: returns the details, or null when the request
fails (its catch returns `null`). -/
def getMovieDetails (api : TmdbApi) (movieId : Nat) : Option TMDBDetails :=
  api.details movieId

/-- Function `getMovieRecommendations`: returns the mapped results, or the EMPTY
list when the request fails (its catch returns `[]` — the failure never
escapes to the caller). -/
def getMovieRecommendations (api : TmdbApi) (movieId : Nat) : List Movie :=
  match api.recommendations movieId with
  | some rs => rs.map transformMovie
  | none => []

/-- Function `getTrendingMovies`: mapped results, or `[]` when the request fails. -/
def getTrendingMovies (api : TmdbApi) : List Movie :=
  match api.trending with
  | some rs => rs.map transformMovie
  | none => []

/-- The `RecommendationResult` shape: a section title plus a movie list. -/
structure RecommendationResult where
  title : String
  movies : List Movie
  deriving Repr, DecidableEq

/-- Function `getRecommendations`: queries the local cache via
`getLastHighRatedMovie`; `if (lastHighRatedMovieId)` is a JS truthiness
test, false for both `null` and `0`. On the truthy branch it derives the
section title from the movie's details (falling back to the literal
"your favorite movie" when the details request fails) and returns
`getMovieRecommendations`' list; otherwise it returns the trending list
titled "Trending This Week". The function's own catch ("Fallback to
trending on error") is unreachable from a failing TMDB request, because
every TMDB helper catches internally. -/
def getRecommendations (api : TmdbApi) (st : List LRating) : RecommendationResult :=
  match getLastHighRatedMovie st with
  | some movieId =>
      if movieId ≠ 0 then
        let movieTitle :=
          match getMovieDetails api movieId with
          | some d => d.title
          | none => "your favorite movie"
        ⟨"Because you liked " ++ movieTitle, getMovieRecommendations api movieId⟩
      else
        ⟨"Trending This Week", getTrendingMovies api⟩
  | none => ⟨"Trending This Week", getTrendingMovies api⟩

/-! ## Claim theorems -/

/-- C10: for every user and movie id with no stored rating,
`GET /api/ratings/:tmdbId` responds 200 with a null `rating` field,
rather than 404 Not Found. -/
theorem getRating_absent_200_null (ratings : List SRating) (uid tid : Nat)
    (h : ∀ x ∈ ratings, ¬ (x.userId = uid ∧ x.tmdbId = tid)) :
    getRatingHandler ratings uid tid = ⟨200, none⟩ ∧
    (getRatingHandler ratings uid tid).status ≠ 404 := by
  have hfind : ratings.find? (fun x => x.userId == uid && x.tmdbId == tid) = none := by
    apply List.find?_eq_none.mpr
    intro x hx
    simp only [Bool.and_eq_true, beq_iff_eq]
    exact h x hx
  constructor
  · unfold getRatingHandler
    rw [hfind]
  · unfold getRatingHandler
    rw [hfind]
    decide

/-- Witness for C10 at a concrete store: user 2 has no rating for
movie 7, and the response is 200 with a null rating. -/
theorem getRating_absent_200_null_witness :
    getRatingHandler [⟨1, 2, 9, 5, none, none, none⟩] 2 7 = ⟨200, none⟩ :=
  (getRating_absent_200_null [⟨1, 2, 9, 5, none, none, none⟩] 2 7 (by decide)).1

/-- C6: every failing login (fields present) — whether the email is
unknown or the bcrypt comparison fails — yields the one response
`401, "Invalid email or password"`, so the two causes are
indistinguishable from the response. -/
theorem login_failure_message_uniform (users : List SUser)
    (checkPw : String → String → Bool) (email password : String)
    (hne : ¬ (email = "" ∨ password = ""))
    (hfail : users.find? (fun u => u.email == jsToLower email) = none ∨
      ∃ u, users.find? (fun u => u.email == jsToLower email) = some u ∧
        checkPw password u.passwordHash = false) :
    loginHandler users checkPw email password = ⟨401, some "Invalid email or password"⟩ := by
  unfold loginHandler
  rw [if_neg hne]
  rcases hfail with h | ⟨u, hu, hpw⟩
  · rw [h]
  · rw [hu]
    simp [hpw]

/-- Witness for C6: with one stored user, a login with an unknown email
and a login with the right email but a failing password comparison both
produce the same concrete response. -/
theorem login_failure_message_uniform_witness :
    loginHandler [⟨1, "Alice", "alice@example.com", "H1"⟩] (fun _ _ => false)
        "bob@example.com" "pw" = ⟨401, some "Invalid email or password"⟩ ∧
    loginHandler [⟨1, "Alice", "alice@example.com", "H1"⟩] (fun _ _ => false)
        "alice@example.com" "pw" = ⟨401, some "Invalid email or password"⟩ := by
  constructor
  · exact login_failure_message_uniform _ _ _ _ (by decide) (Or.inl (by decide))
  · exact login_failure_message_uniform _ _ _ _ (by decide)
      (Or.inr ⟨⟨1, "Alice", "alice@example.com", "H1"⟩, by decide, rfl⟩)

/-- C5: when no collection row with the requested id belongs to the
caller (whether the id exists under a different owner or not at all),
listing items, deleting the collection, and adding an item each respond
404 — not 403 Forbidden — and change nothing. -/
theorem unowned_collection_404 (cols : List SCollection)
    (items : List SCollectionItem) (nextId uid cid tmdbId : Nat)
    (title : String) (posterPath : Option String)
    (h : ∀ c ∈ cols, ¬ (c.id = cid ∧ c.userId = uid)) :
    getItemsHandler cols items uid cid = (⟨404, some "Collection not found"⟩, none) ∧
    deleteCollectionHandler cols items uid cid =
      (⟨404, some "Collection not found"⟩, cols, items) ∧
    addItemHandler cols items nextId uid cid tmdbId title posterPath =
      (⟨404, some "Collection not found"⟩, items, nextId) ∧
    (getItemsHandler cols items uid cid).1.status ≠ 403 ∧
    (deleteCollectionHandler cols items uid cid).1.status ≠ 403 ∧
    (addItemHandler cols items nextId uid cid tmdbId title posterPath).1.status ≠ 403 := by
  have hfind : findOwned cols cid uid = none := by
    apply List.find?_eq_none.mpr
    intro c hc
    simp only [Bool.and_eq_true, beq_iff_eq]
    exact h c hc
  refine ⟨?_, ?_, ?_, ?_, ?_, ?_⟩ <;>
    simp [getItemsHandler, deleteCollectionHandler, addItemHandler, hfind]

/-- Witness for C5: collection 1 exists but belongs to user 1; user 2's
requests against it all get 404 and leave the tables alone. -/
theorem unowned_collection_404_witness :
    getItemsHandler [⟨1, 1, "Faves"⟩] [⟨1, 1, 9, "M", none⟩] 2 1 =
      (⟨404, some "Collection not found"⟩, none) ∧
    deleteCollectionHandler [⟨1, 1, "Faves"⟩] [⟨1, 1, 9, "M", none⟩] 2 1 =
      (⟨404, some "Collection not found"⟩, [⟨1, 1, "Faves"⟩], [⟨1, 1, 9, "M", none⟩]) := by
  have h := unowned_collection_404 [⟨1, 1, "Faves"⟩] [⟨1, 1, 9, "M", none⟩]
    5 2 1 9 "M" none (by decide)
  exact ⟨h.1, h.2.1⟩

/-- C4 counterexample: with `alice@example.com` stored, registering
`Alice@Example.COM` (the same email up to case) is rejected with HTTP
status 400, not 409 Conflict, so "fails with Conflict" is false as
stated (no user is inserted either way — see the amended theorem). -/
theorem register_duplicate_not_conflict :
    (registerHandler [⟨1, "Alice", "alice@example.com", "h1"⟩] 2 (fun p => p)
        ⟨"Bob", "Alice@Example.COM", "secret1"⟩).resp.status = 400 ∧
    ¬ (registerHandler [⟨1, "Alice", "alice@example.com", "h1"⟩] 2 (fun p => p)
        ⟨"Bob", "Alice@Example.COM", "secret1"⟩).resp.status = 409 := by
  constructor
  · rfl
  · decide

/-- C4 (amended): a registration request that passes validation and
whose email is already present among the stored users up to lowercasing
(stored emails are lowercase, as the register handler itself guarantees)
fails with 400 "Email already registered" and inserts no user. -/
theorem register_duplicate_rejected (users : List SUser) (nextId : Nat)
    (hash : String → String) (req : RegisterReq)
    (hlower : ∀ u ∈ users, jsToLower u.email = u.email)
    (hname : req.name ≠ "") (hemail : req.email ≠ "") (hpw : req.password ≠ "")
    (hat : includes req.email '@' = true) (hlen : 6 ≤ req.password.length)
    (hdup : ∃ u ∈ users, jsToLower u.email = jsToLower req.email) :
    registerHandler users nextId hash req =
      ⟨⟨400, some "Email already registered"⟩, users⟩ := by
  have h1 : ¬ (req.name = "" ∨ req.email = "" ∨ req.password = "") := by
    simp [hname, hemail, hpw]
  have h2 : ¬ (includes req.email '@' = false) := by simp [hat]
  have h3 : ¬ (req.password.length < 6) := Nat.not_lt.mpr hlen
  obtain ⟨u, hu, hue⟩ := hdup
  have hue' : (u.email == jsToLower req.email) = true := by
    rw [beq_iff_eq, ← hlower u hu]
    exact hue
  have hsome : (users.find? (fun v => v.email == jsToLower req.email)).isSome :=
    List.find?_isSome.mpr ⟨u, hu, hue'⟩
  obtain ⟨v, hv⟩ := Option.isSome_iff_exists.mp hsome
  unfold registerHandler
  rw [if_neg h1, if_neg h2, if_neg h3, hv]

/-- Witness for the amended C4 at the counterexample's input. -/
theorem register_duplicate_rejected_witness :
    registerHandler [⟨1, "Alice", "alice@example.com", "h1"⟩] 2 (fun p => p)
        ⟨"Bob", "Alice@Example.COM", "secret1"⟩ =
      ⟨⟨400, some "Email already registered"⟩,
        [⟨1, "Alice", "alice@example.com", "h1"⟩]⟩ :=
  register_duplicate_rejected [⟨1, "Alice", "alice@example.com", "h1"⟩] 2
    (fun p => p) ⟨"Bob", "Alice@Example.COM", "secret1"⟩
    (by decide) (by decide) (by decide) (by decide) (by decide) (by decide)
    ⟨⟨1, "Alice", "alice@example.com", "h1"⟩, by decide, by decide⟩

/-- C8: `saveRating` always performs the local upsert, as its first
action; it never throws on account of the sync (the fetch's try/catch
swallows the failure), and the local result is identical whether the
sync fails or succeeds. -/
theorem saveRating_local_first_sync_swallowed (st : List LRating)
    (server : List SRating) (sn uid tid : Nat) (rating : Int)
    (review title posterPath : Option String) (token : Option String)
    (syncFails : Bool) :
    (saveRating st server sn uid tid rating review title posterPath token
        syncFails).localRatings = localUpsert st tid rating review ∧
    (saveRating st server sn uid tid rating review title posterPath token
        syncFails).threw = false ∧
    (saveRating st server sn uid tid rating review title posterPath token
        syncFails).events.head? = some (.localWrite tid rating review) ∧
    (saveRating st server sn uid tid rating review title posterPath token
        true).localRatings =
      (saveRating st server sn uid tid rating review title posterPath token
        false).localRatings := by
  cases token <;> cases syncFails <;> simp [saveRating]

/-- C7: deleting a collection — locally via `deleteCollection`, or on
the server via `DELETE /api/collections/:id` when the collection belongs
to the caller — leaves no `collection_items` row referencing it, and the
item-list query for that collection then returns the empty list. -/
theorem deleteCollection_cascade (lcols : List LCollection) (litems : List LItem)
    (lcid : Nat) (scols : List SCollection) (sitems : List SCollectionItem)
    (uid scid : Nat) (hown : ∃ c ∈ scols, c.id = scid ∧ c.userId = uid) :
    (∀ it ∈ (deleteCollection lcols litems lcid).2, it.collectionId ≠ lcid) ∧
    getCollectionItems (deleteCollection lcols litems lcid).2 lcid = [] ∧
    (deleteCollectionHandler scols sitems uid scid).1.status = 200 ∧
    (∀ it ∈ (deleteCollectionHandler scols sitems uid scid).2.2,
      it.collectionId ≠ scid) ∧
    (deleteCollectionHandler scols sitems uid scid).2.2.filter
      (fun it => it.collectionId == scid) = [] := by
  obtain ⟨c, hc, hcid, huid⟩ := hown
  have hsome : (findOwned scols scid uid).isSome :=
    List.find?_isSome.mpr ⟨c, hc, by simp [hcid, huid]⟩
  obtain ⟨c', hc'⟩ := Option.isSome_iff_exists.mp hsome
  refine ⟨?_, ?_, ?_, ?_, ?_⟩
  · intro it hit
    simp only [deleteCollection] at hit
    exact bne_iff_ne.mp (List.mem_filter.mp hit).2
  · apply List.filter_eq_nil_iff.mpr
    intro it hit
    simp only [deleteCollection] at hit
    have := bne_iff_ne.mp (List.mem_filter.mp hit).2
    simpa using this
  · simp [deleteCollectionHandler, hc']
  · intro it hit
    simp only [deleteCollectionHandler, hc'] at hit
    exact bne_iff_ne.mp (List.mem_filter.mp hit).2
  · apply List.filter_eq_nil_iff.mpr
    intro it hit
    simp only [deleteCollectionHandler, hc'] at hit
    have := bne_iff_ne.mp (List.mem_filter.mp hit).2
    simpa using this

/-- Witness for C7: a concrete local delete of collection 1 and a
concrete owned server delete of collection 3 both leave the item-list
query empty. -/
theorem deleteCollection_cascade_witness :
    getCollectionItems
        (deleteCollection [⟨1, "A"⟩] [⟨1, 1, 9, "M", none⟩, ⟨2, 2, 8, "N", none⟩] 1).2
        1 = [] ∧
    (deleteCollectionHandler [⟨3, 4, "B"⟩] [⟨5, 3, 9, "M", none⟩] 4 3).2.2.filter
      (fun it => it.collectionId == 3) = [] := by
  have h := deleteCollection_cascade [⟨1, "A"⟩]
    [⟨1, 1, 9, "M", none⟩, ⟨2, 2, 8, "N", none⟩] 1
    [⟨3, 4, "B"⟩] [⟨5, 3, 9, "M", none⟩] 4 3 ⟨⟨3, 4, "B"⟩, by decide, by decide, by decide⟩
  exact ⟨h.2.1, h.2.2.2.2⟩

/-- C9: the client `addMovieToCollection` is idempotent on a movie whose
tmdb id is already in the target collection — the table is unchanged and
the existing item's id is returned — and it preserves the invariant that
no two rows share a `(collection_id, tmdb_id)` pair. -/
theorem addMovieToCollection_idempotent (items : List LItem) (nextId cid : Nat)
    (movie : MovieArg) :
    ((∃ it ∈ items, it.collectionId = cid ∧ it.tmdbId = movie.tmdbId.getD movie.id) →
      (addMovieToCollection items nextId cid movie).1 = items ∧
      ∃ it, items.find? (fun it => it.collectionId == cid &&
          it.tmdbId == movie.tmdbId.getD movie.id) = some it ∧
        (addMovieToCollection items nextId cid movie).2.2 = it.id) ∧
    (List.Pairwise
        (fun a b => ¬ (a.collectionId = b.collectionId ∧ a.tmdbId = b.tmdbId)) items →
      List.Pairwise
        (fun a b => ¬ (a.collectionId = b.collectionId ∧ a.tmdbId = b.tmdbId))
        (addMovieToCollection items nextId cid movie).1) := by
  constructor
  · intro hex
    obtain ⟨it0, hit0, h1, h2⟩ := hex
    have hsome : (items.find? (fun it => it.collectionId == cid &&
        it.tmdbId == movie.tmdbId.getD movie.id)).isSome :=
      List.find?_isSome.mpr ⟨it0, hit0, by simp [h1, h2]⟩
    obtain ⟨v, hv⟩ := Option.isSome_iff_exists.mp hsome
    refine ⟨by simp [addMovieToCollection, hv], v, hv, by simp [addMovieToCollection, hv]⟩
  · intro hpw
    cases hfind : items.find? (fun it => it.collectionId == cid &&
        it.tmdbId == movie.tmdbId.getD movie.id) with
    | some v => simpa [addMovieToCollection, hfind] using hpw
    | none =>
        simp only [addMovieToCollection, hfind]
        rw [List.pairwise_append]
        refine ⟨hpw, List.pairwise_singleton _ _, ?_⟩
        intro a ha b hb
        rw [List.mem_singleton] at hb
        subst hb
        have hna := List.find?_eq_none.mp hfind a ha
        simp only [Bool.and_eq_true, beq_iff_eq] at hna
        simpa using hna

/-- Witness for C9: adding movie 99 to collection 2 when item 5 already
holds it changes nothing and returns 5. -/
theorem addMovieToCollection_idempotent_witness :
    (addMovieToCollection [⟨5, 2, 99, "M", none⟩] 6 2 ⟨99, none, "M", none⟩).1
      = [⟨5, 2, 99, "M", none⟩] ∧
    (addMovieToCollection [⟨5, 2, 99, "M", none⟩] 6 2 ⟨99, none, "M", none⟩).2.2
      = 5 := by
  have h := (addMovieToCollection_idempotent [⟨5, 2, 99, "M", none⟩] 6 2
    ⟨99, none, "M", none⟩).1 ⟨⟨5, 2, 99, "M", none⟩, by decide, by decide, by decide⟩
  refine ⟨h.1, ?_⟩
  obtain ⟨it, hfind, hret⟩ := h.2
  have h2 := hfind.symm.trans (show _ = some (⟨5, 2, 99, "M", none⟩ : LItem) from rfl)
  rw [hret, Option.some.inj h2]

/-- C1 counterexample: user 10 re-rates movie 7 with a body whose
`title` and `poster_path` keys are absent — exactly what the repo's own
client produces (`MovieDetailScreen` passes `poster_path ?? undefined`,
and `JSON.stringify` drops the `undefined`). better-sqlite3 refuses to
bind the raw `undefined` in the UPDATE, the route's catch answers 500
"Failed to save rating", and the row keeps its old rating 3 — it is NOT
updated in place with the prior title/poster kept, refuting the claim as
stated. -/
theorem postRating_absent_fields_500 :
    postRatingHandler [⟨1, 10, 7, 3, some "old", some "T", some "P"⟩] 2 10
        ⟨7, some 5, .null, .undefined, .undefined⟩ =
      (⟨500, some "Failed to save rating"⟩,
        [⟨1, 10, 7, 3, some "old", some "T", some "P"⟩], 2) ∧
    (postRatingHandler [⟨1, 10, 7, 3, some "old", some "T", some "P"⟩] 2 10
        ⟨7, some 5, .null, .undefined, .undefined⟩).2.1 ≠
      [⟨1, 10, 7, 5, none, some "T", some "P"⟩] := by
  exact ⟨by decide, by decide⟩

/-- C1 (amended): `POST /api/ratings` (validation passed: nonzero tmdb
id, rating present). When a `(user, movie)` row exists and the body's
title and poster path are each a string or an explicit null, the row is
updated in place — rating and review set to the new values, prior title
and poster path kept when the new values are null (the `COALESCE`) — and
no row is created; when a row exists but title or poster path is absent
(`undefined`), the driver rejects the raw binding and the route answers
500 "Failed to save rating" with no change; when no row exists it
inserts exactly one (all three optional fields guarded by `|| null`);
and in every case "at most one row per (user, movie) pair" is preserved
for every pair. -/
theorem postRating_upserts (ratings : List SRating) (nextId uid : Nat)
    (b : RatingBody) (r : Int) (htid : b.tmdbId ≠ 0) (hr : b.rating = some r) :
    ((∃ x ∈ ratings, x.userId = uid ∧ x.tmdbId = b.tmdbId) →
      b.title ≠ JsonField.undefined → b.posterPath ≠ JsonField.undefined →
      postRatingHandler ratings nextId uid b =
        (⟨200, none⟩,
          ratings.map (fun x =>
            if x.userId = uid ∧ x.tmdbId = b.tmdbId then
              { x with rating := r, review := jsOrNull b.review,
                       title := coalesce (bindField b.title) x.title,
                       posterPath := coalesce (bindField b.posterPath) x.posterPath }
            else x),
          nextId)) ∧
    ((∃ x ∈ ratings, x.userId = uid ∧ x.tmdbId = b.tmdbId) →
      (b.title = JsonField.undefined ∨ b.posterPath = JsonField.undefined) →
      postRatingHandler ratings nextId uid b =
        (⟨500, some "Failed to save rating"⟩, ratings, nextId)) ∧
    ((∀ x ∈ ratings, ¬ (x.userId = uid ∧ x.tmdbId = b.tmdbId)) →
      postRatingHandler ratings nextId uid b =
        (⟨200, none⟩,
          ratings ++ [⟨nextId, uid, b.tmdbId, r, jsOrNull b.review,
                       jsOrNull b.title, jsOrNull b.posterPath⟩],
          nextId + 1)) ∧
    (∀ u t : Nat,
      ratings.countP (fun x => x.userId == u && x.tmdbId == t) ≤ 1 →
      (postRatingHandler ratings nextId uid b).2.1.countP
        (fun x => x.userId == u && x.tmdbId == t) ≤ 1) := by
  refine ⟨?_, ?_, ?_, ?_⟩
  · intro hex ht hp
    obtain ⟨x0, hx0, hk1, hk2⟩ := hex
    have hsome : (ratings.find? (fun x =>
        x.userId == uid && x.tmdbId == b.tmdbId)).isSome :=
      List.find?_isSome.mpr ⟨x0, hx0, by simp [hk1, hk2]⟩
    obtain ⟨v, hv⟩ := Option.isSome_iff_exists.mp hsome
    simp only [postRatingHandler, hr]
    rw [if_neg htid]
    simp only [hv]
    rw [if_neg (not_or.mpr ⟨ht, hp⟩)]
  · intro hex hun
    obtain ⟨x0, hx0, hk1, hk2⟩ := hex
    have hsome : (ratings.find? (fun x =>
        x.userId == uid && x.tmdbId == b.tmdbId)).isSome :=
      List.find?_isSome.mpr ⟨x0, hx0, by simp [hk1, hk2]⟩
    obtain ⟨v, hv⟩ := Option.isSome_iff_exists.mp hsome
    simp only [postRatingHandler, hr]
    rw [if_neg htid]
    simp only [hv]
    rw [if_pos hun]
  · intro hnone
    have hfind : ratings.find? (fun x =>
        x.userId == uid && x.tmdbId == b.tmdbId) = none := by
      apply List.find?_eq_none.mpr
      intro x hx
      simp only [Bool.and_eq_true, beq_iff_eq]
      exact hnone x hx
    simp only [postRatingHandler, hr]
    rw [if_neg htid]
    simp only [hfind]
  · intro u t hle
    cases hfind : ratings.find? (fun x =>
        x.userId == uid && x.tmdbId == b.tmdbId) with
    | some v =>
        simp only [postRatingHandler, hr]
        rw [if_neg htid]
        simp only [hfind]
        by_cases hun : b.title = JsonField.undefined ∨ b.posterPath = JsonField.undefined
        · rw [if_pos hun]
          exact hle
        · rw [if_neg hun]
          rw [List.countP_map]
          have heq : ratings.countP ((fun x => x.userId == u && x.tmdbId == t) ∘
              (fun x => if x.userId = uid ∧ x.tmdbId = b.tmdbId then
                { x with rating := r, review := jsOrNull b.review,
                         title := coalesce (bindField b.title) x.title,
                         posterPath := coalesce (bindField b.posterPath) x.posterPath }
              else x)) = ratings.countP (fun x => x.userId == u && x.tmdbId == t) := by
            apply List.countP_congr
            intro x _
            by_cases hxk : x.userId = uid ∧ x.tmdbId = b.tmdbId <;> simp [hxk]
          rw [heq]
          exact hle
    | none =>
        simp only [postRatingHandler, hr]
        rw [if_neg htid]
        simp only [hfind]
        rw [List.countP_append]
        by_cases hnew : ((uid == u) && (b.tmdbId == t)) = true
        · have h0c : ratings.countP (fun x => x.userId == u && x.tmdbId == t) = 0 := by
            apply List.countP_eq_zero.mpr
            intro x hx hpx
            have hfx := List.find?_eq_none.mp hfind x hx
            simp only [Bool.and_eq_true, beq_iff_eq] at hpx hfx hnew
            exact hfx ⟨hpx.1.trans hnew.1.symm, hpx.2.trans hnew.2.symm⟩
          have hsing := List.countP_le_length
            (l := [(⟨nextId, uid, b.tmdbId, r, jsOrNull b.review,
              jsOrNull b.title, jsOrNull b.posterPath⟩ : SRating)])
            (p := fun x => x.userId == u && x.tmdbId == t)
          rw [h0c]
          simpa using hsing
        · have h1c : ([(⟨nextId, uid, b.tmdbId, r, jsOrNull b.review,
              jsOrNull b.title, jsOrNull b.posterPath⟩ : SRating)]).countP
              (fun x => x.userId == u && x.tmdbId == t) = 0 := by
            apply List.countP_eq_zero.mpr
            intro a ha hpa
            rw [List.mem_singleton] at ha
            subst ha
            exact hnew hpa
          rw [h1c]
          simpa using hle

/-- Witness for the amended C1: user 10 re-rates movie 7 with explicit
null title/poster — updated in place, old title and poster kept; a
first-time rating of movie 8 inserts exactly one row; and a re-rating
with absent title/poster answers 500 leaving the table unchanged. -/
theorem postRating_upserts_witness :
    postRatingHandler [⟨1, 10, 7, 3, some "old", some "T", some "P"⟩] 2 10
        ⟨7, some 5, .str "nice", .null, .null⟩ =
      (⟨200, none⟩, [⟨1, 10, 7, 5, some "nice", some "T", some "P"⟩], 2) ∧
    postRatingHandler [⟨1, 10, 7, 3, some "old", some "T", some "P"⟩] 2 10
        ⟨8, some 4, .undefined, .str "U", .str "Q"⟩ =
      (⟨200, none⟩, [⟨1, 10, 7, 3, some "old", some "T", some "P"⟩,
        ⟨2, 10, 8, 4, none, some "U", some "Q"⟩], 3) ∧
    postRatingHandler [⟨1, 10, 7, 3, some "old", some "T", some "P"⟩] 2 10
        ⟨9, some 5, .str "ok", .undefined, .undefined⟩ =
      (⟨200, none⟩, [⟨1, 10, 7, 3, some "old", some "T", some "P"⟩,
        ⟨2, 10, 9, 5, some "ok", none, none⟩], 3) := by
  refine ⟨?_, ?_, ?_⟩
  · have h := (postRating_upserts [⟨1, 10, 7, 3, some "old", some "T", some "P"⟩]
      2 10 ⟨7, some 5, .str "nice", .null, .null⟩ 5 (by decide) rfl).1
      (by decide) (by decide) (by decide)
    exact h.trans (by decide)
  · have h := (postRating_upserts [⟨1, 10, 7, 3, some "old", some "T", some "P"⟩]
      2 10 ⟨8, some 4, .undefined, .str "U", .str "Q"⟩ 4 (by decide) rfl).2.2.1 (by decide)
    exact h.trans (by decide)
  · have h := (postRating_upserts [⟨1, 10, 7, 3, some "old", some "T", some "P"⟩]
      2 10 ⟨9, some 5, .str "ok", .undefined, .undefined⟩ 5 (by decide) rfl).2.2.1 (by decide)
    exact h.trans (by decide)

/-- C2 (code bug): in the local `ratings` schema `tmdb_id INTEGER
PRIMARY KEY` aliases SQLite's `rowid`, so `getLastHighRatedMovie`'s
`ORDER BY rowid DESC LIMIT 1` selects the greatest tmdb id rated ≥ 4 —
not the most recently inserted one, which is what both the spec and the
function's own doc comment describe. With movie 7 rated 5 first and
movie 3 rated 5 afterwards, the most recent high rating is movie 3, yet
the selector yields movie 7 and `getRecommendations` keys its title and
list to movie 7. -/
theorem getRecommendations_keys_on_max_tmdb_id :
    getLastHighRatedMovie [⟨7, 5, none⟩, ⟨3, 5, none⟩] = some 7 ∧
    specLastHighRatedMovie [⟨7, 5, none⟩, ⟨3, 5, none⟩] = some 3 ∧
    getRecommendations
        ⟨fun i => if i = 7 then some ⟨7, "Seven"⟩ else some ⟨i, "Three"⟩,
         fun i => if i = 7 then some [⟨70, "RecOfSeven", none⟩]
                  else some [⟨30, "RecOfThree", none⟩],
         some [⟨1, "Trend", none⟩]⟩
        [⟨7, 5, none⟩, ⟨3, 5, none⟩] =
      ⟨"Because you liked Seven", [⟨70, 70, "RecOfSeven", none⟩]⟩ :=
  ⟨rfl, rfl, rfl⟩

/-- C3 counterexample: with movie 5 rated 5 locally, details succeeding
("Heat") and the recommendations request failing while trending is
available and nonempty, `getRecommendations` does NOT fall back to the
trending list: it returns the "Because you liked Heat" section with an
empty movie list. -/
theorem getRecommendations_no_trending_on_failed_recs :
    getRecommendations
        ⟨fun i => some ⟨i, "Heat"⟩, fun _ => none, some [⟨9, "Trend", none⟩]⟩
        [⟨5, 5, none⟩] =
      ⟨"Because you liked Heat", []⟩ ∧
    getTrendingMovies
        ⟨fun i => some ⟨i, "Heat"⟩, fun _ => none, some [⟨9, "Trend", none⟩]⟩
      = [⟨9, 9, "Trend", none⟩] :=
  ⟨rfl, rfl⟩

/-- C3 (amended): when the local cache selects a high-rated movie
(nonzero id, per the JS truthiness test) and the external
recommendations call for it fails, the failure degrades to an empty
list inside `getMovieRecommendations`, so `getRecommendations` returns
the "Because you liked …" section with an empty movie list — never the
trending fallback. -/
theorem getRecommendations_failed_recs_empty (api : TmdbApi) (st : List LRating)
    (mid : Nat) (hhigh : getLastHighRatedMovie st = some mid) (h0 : mid ≠ 0)
    (hfail : api.recommendations mid = none) :
    (getRecommendations api st).movies = [] ∧
    (getRecommendations api st).title =
      "Because you liked " ++
        (match getMovieDetails api mid with
         | some d => d.title
         | none => "your favorite movie") ∧
    (getRecommendations api st).title ≠ "Trending This Week" := by
  have hres : getRecommendations api st =
      ⟨"Because you liked " ++
        (match getMovieDetails api mid with
         | some d => d.title
         | none => "your favorite movie"), []⟩ := by
    simp only [getRecommendations, hhigh, getMovieRecommendations, hfail]
    rw [if_pos h0]
  refine ⟨by rw [hres], by rw [hres], ?_⟩
  rw [hres]
  intro h
  have h2 := congrArg String.data h
  rw [String.data_append] at h2
  have hB : "Because you liked ".data = 'B' :: "ecause you liked ".data := rfl
  have hT : "Trending This Week".data = 'T' :: "rending This Week".data := rfl
  rw [hB, hT, List.cons_append] at h2
  exact absurd (List.head_eq_of_cons_eq h2) (by decide)

/-- Witness for the amended C3 at the counterexample's inputs. -/
theorem getRecommendations_failed_recs_empty_witness :
    (getRecommendations
        ⟨fun i => some ⟨i, "Heat"⟩, fun _ => none, some [⟨9, "Trend", none⟩]⟩
        [⟨5, 5, none⟩]).movies = [] :=
  (getRecommendations_failed_recs_empty
    ⟨fun i => some ⟨i, "Heat"⟩, fun _ => none, some [⟨9, "Trend", none⟩]⟩
    [⟨5, 5, none⟩] 5 rfl (by decide) rfl).1

end MovieApp
